import Mathlib

/-!
Verification development for the vibeboard repository.

The repository has two source files:
* `src/js/share.js` — class `AudioShareManager`, a tiered audio-sharing
  widget (fetch the file, try the native Web Share API, fall back to a
  modal with five manual actions);
* `src/service-worker.js` — a cache-first service worker with a fixed
  asset manifest.

The browser environment (fetch results, the Web Share API, clipboard,
object URLs, `window.open`, `alert`) is modelled by an explicit
environment record, and each method of `AudioShareManager` is embedded
as a pure function from that environment to the list of observable
events it produces.  Fallible JavaScript code is embedded with
`Except`.
-/

namespace Vibeboard

/-- An in-memory binary blob, identified abstractly.  The share code never
inspects blob contents, so an opaque tag suffices. -/
structure Blob where
  tag : Nat
deriving DecidableEq

/-- A `File` object as built by `new File([audioBlob], name, \x7b type \x7d)`. -/
structure File where
  name : String
  mimeType : String
  content : Blob
deriving DecidableEq

/-- The payload passed to `navigator.share`.  `files := none` models a
share call whose payload has no `files` property at all (the text-only
share), while `files := some l` models an attached file list. -/
structure SharePayload where
  title : String
  text : String
  files : Option (List File)
deriving DecidableEq

/-- Result of awaiting a `navigator.share` invocation: the promise either
resolves or rejects. -/
inductive ShareCallResult where
  | resolved
  | rejected
deriving DecidableEq

/-- Result of `fetch` on a URL: an OK response carrying a blob, a response
with a non-OK HTTP status, or a network failure whose error message is
platform supplied. -/
inductive FetchOutcome where
  | ok (blob : Blob)
  | httpError
  | networkError (msg : String)
deriving DecidableEq

/-- One manual action offered by the fallback modal, with the arguments
baked into its button handler by `showFileShareOptions`. -/
inductive Action where
  | downloadAndShare (filename downloadUrl : String)
  | shareViaEmail (filename downloadUrl : String)
  | copyFileLink (directory filename : String)
  | shareToWhatsApp (filename directory : String)
  | shareToTwitter (filename directory : String)
deriving DecidableEq

/-- The manual-options surface (the `.share-modal` element) with the data
its buttons close over. -/
structure Modal where
  filename : String
  downloadUrl : String
  actions : List Action
deriving DecidableEq

/-- Observable browser effects of the share code. -/
inductive Event where
  | nativeShareInvoked (payload : SharePayload)
  | modalShown (modal : Modal)
  | modalRemoved
  | notificationShown (message : String)
  | objectUrlCreated (url : String)
  | objectUrlRevoked (url : String)
  | clipboardWriteAttempted (text : String)
  | downloadTriggered (url saveAs : String)
  | windowOpened (url : String)
deriving DecidableEq

/-- The parts of `navigator` the share code consults. -/
structure Navigator where
  hasShare : Bool
  hasCanShare : Bool
  canShareResult : List File → Bool
  shareOutcome : SharePayload → ShareCallResult

/-- The browser environment of one share interaction: the page origin
(`window.location.origin`), the network, the navigator, the object-URL
allocator and the clipboard. -/
structure Env where
  origin : String
  fetch : String → FetchOutcome
  nav : Navigator
  createObjectURL : Blob → String
  clipboardWrite : String → Bool

/- ### Model of the ECMAScript `encodeURIComponent` builtin -/

/-- Uppercase hexadecimal digit, as used by percent-encoding. -/
def hexDigitChar (n : Nat) : Char :=
  if n < 10 then Char.ofNat (48 + n) else Char.ofNat (55 + n)

/-- UTF-8 byte sequence of a code point. -/
def utf8Bytes (c : Char) : List Nat :=
  let n := c.toNat
  if n < 128 then [n]
  else if n < 2048 then [192 + n / 64, 128 + n % 64]
  else if n < 65536 then [224 + n / 4096, 128 + n / 64 % 64, 128 + n % 64]
  else [240 + n / 262144, 128 + n / 4096 % 64, 128 + n / 64 % 64, 128 + n % 64]

/-- Characters `encodeURIComponent` leaves unescaped: ASCII letters and
digits and `- _ . ! ~ * ( )` and the apostrophe (code point 39). -/
def isUnreservedChar (c : Char) : Bool :=
  c.isAlphanum || c == '-' || c == '_' || c == '.' || c == '!' ||
    c == '~' || c == '*' || c.toNat == 39 || c == '(' || c == ')'

/-- Encoding of a single character: kept verbatim if unreserved, otherwise
each UTF-8 byte becomes a percent triple with uppercase hex digits. -/
def encChar (c : Char) : List Char :=
  if isUnreservedChar c then [c]
  else (utf8Bytes c).foldr (fun b r => '%' :: hexDigitChar (b / 16) :: hexDigitChar (b % 16) :: r) []

/-- Model of the ECMAScript `encodeURIComponent` builtin. -/
def encodeURIComponent (s : String) : String :=
  String.mk (s.data.foldr (fun c r => encChar c ++ r) [])

/-- The apostrophe character (code point 39) as a string. -/
def apos : String :=
  String.mk [Char.ofNat 39]

/- ### Embedding of `src/js/share.js` (class `AudioShareManager`) -/

/-- Message built by `showErrorMessage(filename, error)`:
`alert` of a cross mark, the filename in quotes, and the error text. -/
def showErrorMessage (filename err : String) : String :=
  "❌ Failed to share \"" ++ filename ++ "\"\n\nError: " ++ err

/-- Message built by `showSuccessMessage(message)`. -/
def showSuccessMessage (message : String) : String :=
  "✅ " ++ message

/-- Embedding of `fetchAudioFile(directory, filename)`: fetch
`directory/filename.mp3`; a non-OK response raises
`Error(\x27Failed to fetch audio file\x27)`; a network failure propagates the
platform error; otherwise the blob is returned. -/
def fetchAudioFile (env : Env) (directory filename : String) : Except String Blob :=
  match env.fetch (directory ++ "/" ++ filename ++ ".mp3") with
  | FetchOutcome.ok blob => Except.ok blob
  | FetchOutcome.httpError => Except.error "Failed to fetch audio file"
  | FetchOutcome.networkError msg => Except.error msg

/-- Embedding of `tryNativeFileShare(filename, audioBlob)`.  Returns the
success flag together with the events produced.  With no `navigator.share`
it returns `false` at once; otherwise it builds the `File`, and either
invokes the file share (when `navigator.canShare` exists and accepts the
file list) or the text-only share.  A rejected share promise is caught and
turned into `false`. -/
def tryNativeFileShare (nav : Navigator) (filename : String) (audioBlob : Blob) :
    Bool × List Event :=
  if nav.hasShare = false then (false, [])
  else
    let file : File := { name := filename ++ ".mp3", mimeType := "audio/mpeg", content := audioBlob }
    if nav.hasCanShare && nav.canShareResult [file] then
      let payload : SharePayload :=
        { title := "Vibeboard Sound: " ++ filename,
          text := "Check out this sound from Vibeboard!",
          files := some [file] }
      match nav.shareOutcome payload with
      | ShareCallResult.resolved => (true, [Event.nativeShareInvoked payload])
      | ShareCallResult.rejected => (false, [Event.nativeShareInvoked payload])
    else
      let payload : SharePayload :=
        { title := "Vibeboard Sound: " ++ filename,
          text := "Check out this sound from Vibeboard: \"" ++ filename ++ "\"",
          files := none }
      match nav.shareOutcome payload with
      | ShareCallResult.resolved => (true, [Event.nativeShareInvoked payload])
      | ShareCallResult.rejected => (false, [Event.nativeShareInvoked payload])

/-- Embedding of `closeModal()`: removes the current `.share-modal`
element; no object URL is revoked here. -/
def closeModal : List Event :=
  [Event.modalRemoved]

/-- Embedding of the Close button handler
`this.closest(\x27.share-modal\x27).remove()`: removes the modal only. -/
def closeButtonClick : List Event :=
  [Event.modalRemoved]

/-- Embedding of the backdrop click listener: revokes the download URL and
removes the modal. -/
def backdropClick (downloadUrl : String) : List Event :=
  [Event.objectUrlRevoked downloadUrl, Event.modalRemoved]

/-- Embedding of `downloadAndShare(filename, downloadUrl)`: triggers a
download of the blob URL under `filename.mp3`, closes the modal, and the
delayed `alert` with manual-sharing instructions fires afterwards. -/
def downloadAndShare (filename downloadUrl : String) : List Event :=
  [Event.downloadTriggered downloadUrl (filename ++ ".mp3")] ++ closeModal ++
    [Event.notificationShown ("✅ \"" ++ filename ++ ".mp3\" downloaded!\n\nNow you can:\n• Share it directly to Instagram Stories\n• Send via Messenger\n• Add to any social media app\n• Send via AirDrop/Bluetooth")]

/-- Embedding of `shareViaEmail(filename, downloadUrl)`: opens a `mailto:`
URL with an encoded subject and body (the body names a download URL under
the hardcoded `sounds` directory), then also runs `downloadAndShare`. -/
def shareViaEmail (origin filename downloadUrl : String) : List Event :=
  let subject := encodeURIComponent ("Check out this sound: " ++ filename)
  let body := encodeURIComponent
    ("Hey! Check out this awesome sound from Vibeboard: \"" ++ filename ++
      "\"\n\nI" ++ apos ++ "ve attached the audio file for you to enjoy!\n\nNote: Download the file from: " ++
      origin ++ "/sounds/" ++ filename ++ ".mp3")
  [Event.windowOpened ("mailto:?subject=" ++ subject ++ "&body=" ++ body)] ++
    downloadAndShare filename downloadUrl

/-- Embedding of `copyFileLink(directory, filename)`: attempts the
clipboard write of the direct file URL; on success shows the success
message, on rejection shows the clipboard error; either way it then
closes the modal. -/
def copyFileLink (env : Env) (directory filename : String) : List Event :=
  let fileUrl := env.origin ++ "/" ++ directory ++ "/" ++ filename ++ ".mp3"
  (if env.clipboardWrite fileUrl then
    [Event.clipboardWriteAttempted fileUrl,
     Event.notificationShown (showSuccessMessage
       ("File link copied!\n\n\"" ++ fileUrl ++ "\"\n\nPaste this anywhere to share the audio file."))]
  else
    [Event.clipboardWriteAttempted fileUrl,
     Event.notificationShown (showErrorMessage filename "Could not copy to clipboard")]) ++
    closeModal

/-- Embedding of `shareToWhatsApp(filename, directory)`: opens the
messaging deep link and closes the modal. -/
def shareToWhatsApp (origin filename directory : String) : List Event :=
  let fileUrl := origin ++ "/" ++ directory ++ "/" ++ filename ++ ".mp3"
  let message := encodeURIComponent
    ("🎵 Check out this sound: \"" ++ filename ++ "\"\n\nListen here: " ++ fileUrl)
  [Event.windowOpened ("https://wa.me/?text=" ++ message)] ++ closeModal

/-- Embedding of `shareToTwitter(filename, directory)`: opens the
microblog deep link and closes the modal. -/
def shareToTwitter (origin filename directory : String) : List Event :=
  let fileUrl := origin ++ "/" ++ directory ++ "/" ++ filename ++ ".mp3"
  let message := encodeURIComponent
    ("🎵 Check out this awesome sound: \"" ++ filename ++ "\" " ++ fileUrl)
  [Event.windowOpened ("https://twitter.com/intent/tweet?text=" ++ message)] ++ closeModal

/-- Embedding of `showFileShareOptions(filename, directory, audioBlob)`:
creates the blob object URL and shows the modal whose buttons are the five
manual actions with the arguments the template bakes in. -/
def showFileShareOptions (env : Env) (filename directory : String) (audioBlob : Blob) :
    List Event :=
  let downloadUrl := env.createObjectURL audioBlob
  [Event.objectUrlCreated downloadUrl,
   Event.modalShown
     { filename := filename,
       downloadUrl := downloadUrl,
       actions :=
         [Action.downloadAndShare filename downloadUrl,
          Action.shareViaEmail filename downloadUrl,
          Action.copyFileLink directory filename,
          Action.shareToWhatsApp filename directory,
          Action.shareToTwitter filename directory] }]

/-- The `try` block of `shareSound(filename, directory)`: fetch the blob
(this may throw), then try the native share, then fall back to the modal.
The only throwing step inside the block is `fetchAudioFile`. -/
def shareSoundBody (env : Env) (filename directory : String) : Except String (List Event) :=
  match fetchAudioFile env directory filename with
  | Except.error msg => Except.error msg
  | Except.ok audioBlob =>
    let attempt := tryNativeFileShare env.nav filename audioBlob
    if attempt.1 then Except.ok attempt.2
    else Except.ok (attempt.2 ++ showFileShareOptions env filename directory audioBlob)

/-- Embedding of `shareSound(filename, directory)`: the whole body runs
under `try`/`catch`, and the catch shows `showErrorMessage` with the
message of the thrown error. -/
def shareSound (env : Env) (filename directory : String) : Except String (List Event) :=
  match shareSoundBody env filename directory with
  | Except.ok events => Except.ok events
  | Except.error msg => Except.ok [Event.notificationShown (showErrorMessage filename msg)]

/- ### Embedding of `src/service-worker.js` -/

/-- An HTTP response, identified abstractly. -/
structure Response where
  body : Nat
deriving DecidableEq

/-- The fixed cache name `vibeboard-cache-v1`. -/
def CACHE_NAME : String :=
  "vibeboard-cache-v1"

/-- The fixed asset manifest `urlsToCache`. -/
def urlsToCache : List String :=
  ["/",
   "/index.html",
   "/icon-192.png",
   "/icon-512.png",
   "/sounds/gehaald.mp3",
   "/sounds/plopperdeplop.mp3",
   "/sounds/hallowki.mp3",
   "/sounds/toenplots.mp3",
   "/sounds/luiheeftaids.mp3",
   "/sounds/ikrookeenpijp.mp3",
   "/sounds/eruit.mp3",
   "/sounds/behalvelui.mp3",
   "/sounds/dommerik.mp3",
   "/sounds/seksmetsmal.mp3",
   "/sounds/klus!.mp3",
   "/sounds/geenaids.mp3"]

/-- Embedding of the `install` listener: `caches.open(CACHE_NAME)` then
`cache.addAll(urlsToCache)`, which fetches every manifest URL over the
network and stores the pair.  The result is the named cache and its
entries. -/
def installCache (net : String → Response) : String × List (String × Response) :=
  (CACHE_NAME, urlsToCache.map fun u => (u, net u))

/-- Embedding of `caches.match(request)` over the single cache: the first
entry stored under the request URL, if any. -/
def cachesMatch (cache : List (String × Response)) (req : String) : Option Response :=
  (cache.find? fun p => p.1 == req).map fun p => p.2

/-- Embedding of the `fetch` listener:
`caches.match(event.request).then(response => response || fetch(event.request))`. -/
def handleFetch (cache : List (String × Response)) (net : String → Response) (req : String) :
    Response :=
  match cachesMatch cache req with
  | some r => r
  | none => net req

/- ### Concrete environments used by witnesses -/

/-- A concrete blob. -/
def demoBlob : Blob :=
  { tag := 0 }

/-- A navigator with no share capability at all. -/
def navNone : Navigator :=
  { hasShare := false, hasCanShare := false,
    canShareResult := fun _ => false, shareOutcome := fun _ => ShareCallResult.rejected }

/-- A navigator with full file-share capability whose share resolves. -/
def navFull : Navigator :=
  { hasShare := true, hasCanShare := true,
    canShareResult := fun _ => true, shareOutcome := fun _ => ShareCallResult.resolved }

/-- A navigator with `navigator.share` but no `navigator.canShare`. -/
def navTextOnly : Navigator :=
  { hasShare := true, hasCanShare := false,
    canShareResult := fun _ => false, shareOutcome := fun _ => ShareCallResult.resolved }

/-- An environment whose every fetch yields a non-OK HTTP status. -/
def env404 : Env :=
  { origin := "https://vibeboard.example",
    fetch := fun _ => FetchOutcome.httpError,
    nav := navNone,
    createObjectURL := fun _ => "blob:demo",
    clipboardWrite := fun _ => true }

/-- An environment whose fetch succeeds and whose navigator has no share
capability. -/
def envOkNoShare : Env :=
  { env404 with fetch := fun _ => FetchOutcome.ok demoBlob }

/-- Successful fetch, full file-share capability. -/
def envOkFileShare : Env :=
  { envOkNoShare with nav := navFull }

/-- Successful fetch, text-only share capability. -/
def envOkTextShare : Env :=
  { envOkNoShare with nav := navTextOnly }

/-- Successful fetch, clipboard writes rejected. -/
def envClipFail : Env :=
  { envOkNoShare with clipboardWrite := fun _ => false }

/-- Recognizer for object-URL release events. -/
def isRevokeEvent : Event → Bool
  | Event.objectUrlRevoked _ => true
  | _ => false

/- ### Claim theorems -/

/-- C1: when the fetch of `directory/filename.mp3` fails — non-OK HTTP
status (whose thrown reason is `Failed to fetch audio file`) or network
failure (whose reason is the platform message) — the whole trace of
`shareSound` is exactly one error notification naming the identifier and
the failure reason; in particular no native-share event and no modal
event occurs. -/
theorem c1_fetch_failure_single_error_notification
    (env : Env) (filename directory reason : String)
    (h : env.fetch (directory ++ "/" ++ filename ++ ".mp3") = FetchOutcome.httpError ∧
           reason = "Failed to fetch audio file" ∨
         env.fetch (directory ++ "/" ++ filename ++ ".mp3") = FetchOutcome.networkError reason) :
    shareSound env filename directory =
      Except.ok [Event.notificationShown
        ("❌ Failed to share \"" ++ filename ++ "\"\n\nError: " ++ reason)] := by
  rcases h with ⟨h1, h2⟩ | h1
  · subst h2
    simp [shareSound, shareSoundBody, fetchAudioFile, h1, showErrorMessage]
  · simp [shareSound, shareSoundBody, fetchAudioFile, h1, showErrorMessage]

/-- Witness for C1 at a concrete environment answering 404 to every
fetch. -/
theorem c1_witness :
    shareSound env404 "missing" "sounds" =
      Except.ok [Event.notificationShown
        ("❌ Failed to share \"" ++ "missing" ++ "\"\n\nError: " ++ "Failed to fetch audio file")] :=
  c1_fetch_failure_single_error_notification env404 "missing" "sounds"
    "Failed to fetch audio file" (Or.inl ⟨rfl, rfl⟩)

/-- C2, evaluated on the code: among all ways of closing the
manual-options surface, only the backdrop click revokes the blob
object URL.  The Close button and each of the five terminal actions
remove the modal without any `objectUrlRevoked` event, so the claim that
every close path releases the blob URL fails on the code. -/
theorem c2_only_backdrop_revokes_object_url :
    closeButtonClick.filter isRevokeEvent = [] ∧
    (downloadAndShare "gehaald" "blob:demo").filter isRevokeEvent = [] ∧
    (shareViaEmail "https://vibeboard.example" "gehaald" "blob:demo").filter isRevokeEvent = [] ∧
    (copyFileLink envOkNoShare "sounds" "gehaald").filter isRevokeEvent = [] ∧
    (shareToWhatsApp "https://vibeboard.example" "gehaald" "sounds").filter isRevokeEvent = [] ∧
    (shareToTwitter "https://vibeboard.example" "gehaald" "sounds").filter isRevokeEvent = [] ∧
    (backdropClick "blob:demo").filter isRevokeEvent = [Event.objectUrlRevoked "blob:demo"] :=
  ⟨rfl, rfl, rfl, rfl, rfl, rfl, rfl⟩

/-- C5: `shareSound` never throws to its caller: for every environment,
identifier and directory it settles with `Except.ok`. -/
theorem c5_share_never_throws (env : Env) (filename directory : String) :
    ∃ events, shareSound env filename directory = Except.ok events := by
  unfold shareSound
  cases h : shareSoundBody env filename directory <;> exact ⟨_, rfl⟩

/-- C6: the clipboard-copy action attempts the clipboard write with
exactly the URL `origin/directory/filename.mp3`. -/
theorem c6_copy_link_writes_origin_url (env : Env) (directory filename : String) :
    Event.clipboardWriteAttempted (env.origin ++ "/" ++ directory ++ "/" ++ filename ++ ".mp3") ∈
      copyFileLink env directory filename := by
  cases h : env.clipboardWrite (env.origin ++ "/" ++ directory ++ "/" ++ filename ++ ".mp3") <;>
    simp [copyFileLink, h, closeModal]

/-- C10: the clipboard-copy action unconditionally removes the modal
after the write settles: its trace is the write attempt, one
notification, then the modal removal — with the success message when
the write resolves and the clipboard error message when it rejects. -/
theorem c10_copy_link_always_closes_modal (env : Env) (directory filename : String) :
    ∃ msg, copyFileLink env directory filename =
        [Event.clipboardWriteAttempted (env.origin ++ "/" ++ directory ++ "/" ++ filename ++ ".mp3"),
         Event.notificationShown msg, Event.modalRemoved] ∧
      (env.clipboardWrite (env.origin ++ "/" ++ directory ++ "/" ++ filename ++ ".mp3") = true →
        msg = showSuccessMessage
          ("File link copied!\n\n\"" ++ (env.origin ++ "/" ++ directory ++ "/" ++ filename ++ ".mp3") ++
            "\"\n\nPaste this anywhere to share the audio file.")) ∧
      (env.clipboardWrite (env.origin ++ "/" ++ directory ++ "/" ++ filename ++ ".mp3") = false →
        msg = showErrorMessage filename "Could not copy to clipboard") := by
  cases h : env.clipboardWrite (env.origin ++ "/" ++ directory ++ "/" ++ filename ++ ".mp3")
  · exact ⟨_, by simp [copyFileLink, h, closeModal], fun hh => absurd hh (by decide),
      fun _ => rfl⟩
  · exact ⟨_, by simp [copyFileLink, h, closeModal], fun _ => rfl,
      fun hh => absurd hh (by decide)⟩

/-- Witness for C10: at one environment whose clipboard write resolves
and one whose clipboard write rejects, the modal is removed last in both
traces. -/
theorem c10_witness :
    copyFileLink envOkNoShare "sounds" "gehaald" =
      [Event.clipboardWriteAttempted
         ("https://vibeboard.example" ++ "/" ++ "sounds" ++ "/" ++ "gehaald" ++ ".mp3"),
       Event.notificationShown (showSuccessMessage
         ("File link copied!\n\n\"" ++
           ("https://vibeboard.example" ++ "/" ++ "sounds" ++ "/" ++ "gehaald" ++ ".mp3") ++
           "\"\n\nPaste this anywhere to share the audio file.")),
       Event.modalRemoved] ∧
    copyFileLink envClipFail "sounds" "gehaald" =
      [Event.clipboardWriteAttempted
         ("https://vibeboard.example" ++ "/" ++ "sounds" ++ "/" ++ "gehaald" ++ ".mp3"),
       Event.notificationShown (showErrorMessage "gehaald" "Could not copy to clipboard"),
       Event.modalRemoved] := by
  constructor
  · obtain ⟨msg, he, hs, hf⟩ := c10_copy_link_always_closes_modal envOkNoShare "sounds" "gehaald"
    rw [he, hs rfl]
    rfl
  · obtain ⟨msg, he, hs, hf⟩ := c10_copy_link_always_closes_modal envClipFail "sounds" "gehaald"
    rw [he, hf rfl]
    rfl

/-- C3: with a successful fetch and `navigator.share` present, if the
capability check (`navigator.canShare` exists and accepts the file list)
passes then the native share is invoked with a title, a descriptive text
and exactly one attached file named `filename.mp3` of MIME type
`audio/mpeg`; and if the capability check fails, a text-only native
share (title and text, no files property) is invoked instead. -/
theorem c3_native_share_payloads (env : Env) (filename directory : String) (blob : Blob)
    (hfetch : env.fetch (directory ++ "/" ++ filename ++ ".mp3") = FetchOutcome.ok blob)
    (hshare : env.nav.hasShare = true) :
    ((env.nav.hasCanShare && env.nav.canShareResult
        [{ name := filename ++ ".mp3", mimeType := "audio/mpeg", content := blob }]) = true →
      ∃ events, shareSound env filename directory = Except.ok events ∧
        Event.nativeShareInvoked
          { title := "Vibeboard Sound: " ++ filename,
            text := "Check out this sound from Vibeboard!",
            files := some [{ name := filename ++ ".mp3", mimeType := "audio/mpeg", content := blob }] }
          ∈ events) ∧
    ((env.nav.hasCanShare && env.nav.canShareResult
        [{ name := filename ++ ".mp3", mimeType := "audio/mpeg", content := blob }]) = false →
      ∃ events, shareSound env filename directory = Except.ok events ∧
        Event.nativeShareInvoked
          { title := "Vibeboard Sound: " ++ filename,
            text := "Check out this sound from Vibeboard: \"" ++ filename ++ "\"",
            files := none }
          ∈ events) := by
  constructor
  · intro hcan
    cases hout : env.nav.shareOutcome
        { title := "Vibeboard Sound: " ++ filename,
          text := "Check out this sound from Vibeboard!",
          files := some [{ name := filename ++ ".mp3", mimeType := "audio/mpeg", content := blob }] } <;>
      simp [shareSound, shareSoundBody, fetchAudioFile, hfetch, tryNativeFileShare,
        hshare, hcan, hout, showFileShareOptions]
  · intro hcan
    cases hout : env.nav.shareOutcome
        { title := "Vibeboard Sound: " ++ filename,
          text := "Check out this sound from Vibeboard: \"" ++ filename ++ "\"",
          files := none } <;>
      simp [shareSound, shareSoundBody, fetchAudioFile, hfetch, tryNativeFileShare,
        hshare, hcan, hout, showFileShareOptions]

/-- Witness for C3: a full-capability platform receives the file share,
and a platform with `navigator.share` but no `navigator.canShare`
receives the text-only share. -/
theorem c3_witness :
    (∃ events, shareSound envOkFileShare "gehaald" "sounds" = Except.ok events ∧
      Event.nativeShareInvoked
        { title := "Vibeboard Sound: " ++ "gehaald",
          text := "Check out this sound from Vibeboard!",
          files := some [{ name := "gehaald" ++ ".mp3", mimeType := "audio/mpeg", content := demoBlob }] }
        ∈ events) ∧
    (∃ events, shareSound envOkTextShare "gehaald" "sounds" = Except.ok events ∧
      Event.nativeShareInvoked
        { title := "Vibeboard Sound: " ++ "gehaald",
          text := "Check out this sound from Vibeboard: \"" ++ "gehaald" ++ "\"",
          files := none }
        ∈ events) :=
  ⟨(c3_native_share_payloads envOkFileShare "gehaald" "sounds" demoBlob rfl rfl).1 rfl,
   (c3_native_share_payloads envOkTextShare "gehaald" "sounds" demoBlob rfl rfl).2 rfl⟩

/-- C4: with a successful fetch, when `navigator.share` is absent or every
native share invocation rejects, no notification of any kind is shown and
the manual-options surface appears with all five actions baked into its
buttons. -/
theorem c4_native_failure_demotes_to_modal (env : Env) (filename directory : String) (blob : Blob)
    (hfetch : env.fetch (directory ++ "/" ++ filename ++ ".mp3") = FetchOutcome.ok blob)
    (hfail : env.nav.hasShare = false ∨
      ∀ p, env.nav.shareOutcome p = ShareCallResult.rejected) :
    ∃ events, shareSound env filename directory = Except.ok events ∧
      (∀ s, Event.notificationShown s ∉ events) ∧
      Event.modalShown
        { filename := filename,
          downloadUrl := env.createObjectURL blob,
          actions :=
            [Action.downloadAndShare filename (env.createObjectURL blob),
             Action.shareViaEmail filename (env.createObjectURL blob),
             Action.copyFileLink directory filename,
             Action.shareToWhatsApp filename directory,
             Action.shareToTwitter filename directory] }
        ∈ events := by
  rcases hfail with hns | hrej
  · refine ⟨showFileShareOptions env filename directory blob, ?_, ?_, ?_⟩
    · simp [shareSound, shareSoundBody, fetchAudioFile, hfetch, tryNativeFileShare, hns]
    · intro s
      simp [showFileShareOptions]
    · simp [showFileShareOptions]
  · cases hs : env.nav.hasShare
    · refine ⟨showFileShareOptions env filename directory blob, ?_, ?_, ?_⟩
      · simp [shareSound, shareSoundBody, fetchAudioFile, hfetch, tryNativeFileShare, hs]
      · intro s
        simp [showFileShareOptions]
      · simp [showFileShareOptions]
    · by_cases hc : (env.nav.hasCanShare && env.nav.canShareResult
        [{ name := filename ++ ".mp3", mimeType := "audio/mpeg", content := blob }]) = true
      · refine ⟨Event.nativeShareInvoked
            { title := "Vibeboard Sound: " ++ filename,
              text := "Check out this sound from Vibeboard!",
              files := some [{ name := filename ++ ".mp3", mimeType := "audio/mpeg", content := blob }] } ::
            showFileShareOptions env filename directory blob, ?_, ?_, ?_⟩
        · simp [shareSound, shareSoundBody, fetchAudioFile, hfetch, tryNativeFileShare,
            hs, hc, hrej]
        · intro s
          simp [showFileShareOptions]
        · simp [showFileShareOptions]
      · refine ⟨Event.nativeShareInvoked
            { title := "Vibeboard Sound: " ++ filename,
              text := "Check out this sound from Vibeboard: \"" ++ filename ++ "\"",
              files := none } ::
            showFileShareOptions env filename directory blob, ?_, ?_, ?_⟩
        · simp only [Bool.not_eq_true] at hc
          simp [shareSound, shareSoundBody, fetchAudioFile, hfetch, tryNativeFileShare,
            hs, hc, hrej]
        · intro s
          simp [showFileShareOptions]
        · simp [showFileShareOptions]

/-- Witness for C4 on a platform without any share capability: the modal
with the five actions is shown and no notification occurs. -/
theorem c4_witness :
    ∃ events, shareSound envOkNoShare "gehaald" "sounds" = Except.ok events ∧
      (∀ s, Event.notificationShown s ∉ events) ∧
      Event.modalShown
        { filename := "gehaald",
          downloadUrl := envOkNoShare.createObjectURL demoBlob,
          actions :=
            [Action.downloadAndShare "gehaald" (envOkNoShare.createObjectURL demoBlob),
             Action.shareViaEmail "gehaald" (envOkNoShare.createObjectURL demoBlob),
             Action.copyFileLink "sounds" "gehaald",
             Action.shareToWhatsApp "gehaald" "sounds",
             Action.shareToTwitter "gehaald" "sounds"] }
        ∈ events :=
  c4_native_failure_demotes_to_modal envOkNoShare "gehaald" "sounds" demoBlob rfl (Or.inl rfl)

/-- C7: the messaging deep link is `https://wa.me/?text=` followed by the
URL-encoding of a templated message, the microblog deep link is
`https://twitter.com/intent/tweet?text=` followed by the URL-encoding of
a templated message, and both messages contain the identifier and the
resource URL `origin/directory/filename.mp3`. -/
theorem c7_deep_link_shapes (origin filename directory : String) :
    ∃ msgW msgT,
      shareToWhatsApp origin filename directory =
        [Event.windowOpened ("https://wa.me/?text=" ++ encodeURIComponent msgW),
         Event.modalRemoved] ∧
      shareToTwitter origin filename directory =
        [Event.windowOpened ("https://twitter.com/intent/tweet?text=" ++ encodeURIComponent msgT),
         Event.modalRemoved] ∧
      (∃ a b, msgW = a ++ filename ++ b ++
        (origin ++ "/" ++ directory ++ "/" ++ filename ++ ".mp3")) ∧
      (∃ a b, msgT = a ++ filename ++ b ++
        (origin ++ "/" ++ directory ++ "/" ++ filename ++ ".mp3")) :=
  ⟨_, _, rfl, rfl,
    ⟨"🎵 Check out this sound: \"", "\"\n\nListen here: ", rfl⟩,
    ⟨"🎵 Check out this awesome sound: \"", "\" ", rfl⟩⟩

/-- C8: the service worker serves the cached response whenever the cache
matches the request and otherwise passes the request to the network, and
install opens the cache named `vibeboard-cache-v1` and stores exactly the
manifest paths, each paired with its fetched response. -/
theorem c8_cache_first_and_fixed_manifest
    (cache : List (String × Response)) (net : String → Response) (req : String) :
    (∀ r, cachesMatch cache req = some r → handleFetch cache net req = r) ∧
    (cachesMatch cache req = none → handleFetch cache net req = net req) ∧
    (installCache net).1 = CACHE_NAME ∧
    (installCache net).2.map Prod.fst = urlsToCache ∧
    ∀ u ∈ urlsToCache, (u, net u) ∈ (installCache net).2 := by
  refine ⟨?_, ?_, rfl, ?_, ?_⟩
  · intro r h
    simp [handleFetch, h]
  · intro h
    simp [handleFetch, h]
  · simp only [installCache, List.map_map]
    show List.map id urlsToCache = urlsToCache
    exact List.map_id urlsToCache
  · intro u hu
    simp only [installCache, List.mem_map]
    exact ⟨u, hu, rfl⟩

/-- Witness for C8: a cache hit is served from the cache, a miss goes to
the network, and a manifest sound file is stored at install time. -/
theorem c8_witness :
    handleFetch [("/", { body := 1 })] (fun _ => { body := 2 }) "/" = { body := 1 } ∧
    handleFetch [] (fun _ => { body := 2 }) "/index.html" = { body := 2 } ∧
    ("/sounds/gehaald.mp3", ({ body := 2 } : Response)) ∈
      (installCache fun _ => { body := 2 }).2 :=
  ⟨(c8_cache_first_and_fixed_manifest [("/", { body := 1 })] (fun _ => { body := 2 }) "/").1
      { body := 1 } rfl,
   (c8_cache_first_and_fixed_manifest [] (fun _ => { body := 2 }) "/index.html").2.1 rfl,
   (c8_cache_first_and_fixed_manifest [] (fun _ => { body := 2 }) "/").2.2.2.2
      "/sounds/gehaald.mp3" (by decide)⟩

/-- C9: the email composer opens a `mailto:` URL whose body ends in the
download URL `origin/sounds/filename.mp3` — the directory segment is
hardcoded to `sounds` (the handler receives no directory argument) — so
for a resource in the secondary directory `soundz` the emailed URL
differs from the actual resource path `origin/soundz/filename.mp3`. -/
theorem c9_email_hardcodes_sounds_directory (origin filename downloadUrl : String) :
    (∃ a, shareViaEmail origin filename downloadUrl =
      Event.windowOpened
        ("mailto:?subject=" ++ encodeURIComponent ("Check out this sound: " ++ filename) ++
          "&body=" ++ encodeURIComponent (a ++ origin ++ "/sounds/" ++ filename ++ ".mp3")) ::
        downloadAndShare filename downloadUrl) ∧
    origin ++ "/sounds/" ++ filename ++ ".mp3" ≠
      origin ++ "/" ++ "soundz" ++ "/" ++ filename ++ ".mp3" := by
  constructor
  · exact ⟨"Hey! Check out this awesome sound from Vibeboard: \"" ++ filename ++
      "\"\n\nI" ++ apos ++
      "ve attached the audio file for you to enjoy!\n\nNote: Download the file from: ", rfl⟩
  · intro h
    have hd := congrArg String.data h
    simp only [String.data_append, List.append_assoc] at hd
    have h2 := List.append_cancel_left hd
    have e : ∀ T : List Char,
        ("/".data : List Char) ++ ("soundz".data ++ ("/".data ++ T)) = "/soundz/".data ++ T :=
      fun T => rfl
    rw [e] at h2
    exact absurd (List.append_cancel_right h2) (by decide)

/-- Witness for C9 at a concrete origin and identifier. -/
theorem c9_witness :
    (∃ a, shareViaEmail "https://vibeboard.example" "gehaald" "blob:demo" =
      Event.windowOpened
        ("mailto:?subject=" ++ encodeURIComponent ("Check out this sound: " ++ "gehaald") ++
          "&body=" ++ encodeURIComponent
            (a ++ "https://vibeboard.example" ++ "/sounds/" ++ "gehaald" ++ ".mp3")) ::
        downloadAndShare "gehaald" "blob:demo") ∧
    "https://vibeboard.example" ++ "/sounds/" ++ "gehaald" ++ ".mp3" ≠
      "https://vibeboard.example" ++ "/" ++ "soundz" ++ "/" ++ "gehaald" ++ ".mp3" :=
  c9_email_hardcodes_sounds_directory "https://vibeboard.example" "gehaald" "blob:demo"

end Vibeboard
